import Mathlib

/-!
Shallow embedding of the Cohere provider adapter
(`src/tensorzero_internal/src/inference/providers/cohere.rs`) of the
tensorzero provider-adapter layer, together with theorems settling the
specification claims about it.

Types whose declarations are outside the available sources (the canonical
request type, the shared openai message helpers, the `Credential` enum and
the dynamic-credential table) are modelled from the specification; each such
definition carries a doc comment saying so.  Everything else is translated
from the Rust source.
-/

namespace Cohere

/-- Model of `secrecy::SecretString`: an opaque wrapper around the secret
with a single explicit accessor (`expose_secret`). -/
structure SecretString where
  secret : String
deriving DecidableEq

/-- The single explicit accessor of a `SecretString`. -/
def SecretString.expose_secret (s : SecretString) : String :=
  s.secret

/-- Modelled from the spec: a message role tag of the canonical model. -/
inductive Role where
  | user
  | assistant
deriving DecidableEq

/-- Modelled from the spec: one canonical message, a role tag plus content
(the source's test uses a vector of content blocks). -/
structure RequestMessage where
  role : Role
  content : List String
deriving DecidableEq

/-- Modelled from the spec: a tool definition as forwarded to openai-shaped
vendor bodies (`OpenAITool` lives in `openai.rs`, which is not under the
available sources). -/
structure OpenAITool where
  name : String
  description : String
deriving DecidableEq

/-- Modelled from the spec: a tool-choice policy (`OpenAIToolChoice` lives in
`openai.rs`, which is not under the available sources). -/
inductive OpenAIToolChoice where
  | auto
  | required
  | named (name : String)
deriving DecidableEq

/-- Modelled from the spec: the canonical, vendor-agnostic inference request
(`ModelInferenceRequest` lives in `inference/types.rs`, which is not under
the available sources): an ordered sequence of messages, an optional system
prompt, independently optional sampling parameters, a stream flag, and
optional tool definitions with a tool-choice policy. -/
structure ModelInferenceRequest where
  messages : List RequestMessage
  system : Option String
  temperature : Option Rat
  top_p : Option Rat
  max_tokens : Option Nat
  seed : Option Nat
  frequency_penalty : Option Rat
  presence_penalty : Option Rat
  stream : Bool
  tools_available : Option (List OpenAITool)
  tool_choice : Option OpenAIToolChoice
deriving DecidableEq

/-- Modelled from the spec: the wire shape of one message as produced by the
shared message-mapping helper of `openai.rs`. -/
structure OpenAIRequestMessage where
  role : String
  content : List String
deriving DecidableEq

/-- Wire spelling of a canonical role tag. -/
def Role.wire : Role → String
  | .user => "user"
  | .assistant => "assistant"

/-- Modelled from the spec: `prepare_openai_messages` of `openai.rs` (not
under the available sources) translates the canonical messages 1:1,
preserving order. -/
def prepare_openai_messages (request : ModelInferenceRequest) :
    List OpenAIRequestMessage :=
  request.messages.map (fun m => { role := m.role.wire, content := m.content })

/-- The error taxonomy (`ErrorDetails` of `error.rs`); the variants and their
fields are those the spec's data model gives and the source constructs. -/
inductive ErrorDetails where
  | Config (message : String)
  | ApiKeyMissing (provider_name : String)
  | InferenceClient (message : String) (status_code : Option Nat)
      (raw_request : Option String) (raw_response : Option String)
      (provider_type : String)
  | InferenceServer (message : String) (raw_request : Option String)
      (raw_response : Option String) (provider_type : String)
deriving DecidableEq

/-- `Error::new` merely wraps `ErrorDetails`; the wrapper is identified with
its details. -/
abbrev Error := ErrorDetails

/-- The `raw_response` field of an error, when its variant has one. -/
def ErrorDetails.rawResp : ErrorDetails → Option String
  | .Config _ => none
  | .ApiKeyMissing _ => none
  | .InferenceClient _ _ _ rr _ => rr
  | .InferenceServer _ _ rr _ => rr

/-- Modelled from the spec: the deployment-level `Credential` enum
(`model.rs` is not under the available sources).  The spec names the
variants `Static`, `Dynamic`, `None` and the test-only `Missing`; the
source's `try_from` has a catch-all `_` arm, so any further variant of the
enum is represented by `Other`. -/
inductive Credential where
  | Static (key : SecretString)
  | Dynamic (key_name : String)
  | None
  | Missing
  | Other (variant : String)
deriving DecidableEq

/-- The provider-local credential variants (`CohereCredentials`). -/
inductive CohereCredentials where
  | Static (api_key : SecretString)
  | Dynamic (key_name : String)
  | None
deriving DecidableEq

/-- `TryFrom<Credential> for CohereCredentials`, translated from the source;
the `cfg(test)`-gated arm mapping `Missing` to `None` is included, matching
a test build. -/
def CohereCredentials.try_from (credentials : Credential) :
    Except Error CohereCredentials :=
  match credentials with
  | .Static key => .ok (.Static key)
  | .Dynamic key_name => .ok (.Dynamic key_name)
  | .None => .ok .None
  | .Missing => .ok .None
  | .Other _ => .error (.Config "Invalid api_key_location for Cohere provider")

/-- Modelled from the spec: the per-call dynamic-credential table
(`InferenceCredentials` of `endpoints/inference.rs`, not under the available
sources): a read-only mapping from secret name to secret value. -/
def InferenceCredentials := String → Option SecretString

/-- `CohereCredentials::get_api_key`, translated from the source. -/
def CohereCredentials.get_api_key (c : CohereCredentials)
    (dynamic_api_keys : InferenceCredentials) : Except Error SecretString :=
  match c with
  | .Static api_key => .ok api_key
  | .Dynamic key_name =>
    match dynamic_api_keys key_name with
    | some key => .ok key
    | none => .error (.ApiKeyMissing "Cohere")
  | .None => .error (.ApiKeyMissing "Cohere")

/-- `get_api_key` with the state threaded explicitly: the source takes shared
references (`&self`, `&InferenceCredentials`), so each arm is translated as
returning the credential value and the table alongside the result. -/
def CohereCredentials.get_api_key_st (c : CohereCredentials)
    (dynamic_api_keys : InferenceCredentials) :
    Except Error SecretString × CohereCredentials × InferenceCredentials :=
  match c with
  | .Static api_key => (.ok api_key, c, dynamic_api_keys)
  | .Dynamic key_name =>
    match dynamic_api_keys key_name with
    | some key => (.ok key, c, dynamic_api_keys)
    | none => (.error (.ApiKeyMissing "Cohere"), c, dynamic_api_keys)
  | .None => (.error (.ApiKeyMissing "Cohere"), c, dynamic_api_keys)

/-- The vendor request body (`CohereRequest`), field for field from the
source declaration; every `Option` field except `stream` carries serde's
`skip_serializing_if = "Option::is_none"` attribute, which the serializer
below honours. -/
structure CohereRequest where
  messages : List OpenAIRequestMessage
  model : String
  stream : Option Bool
  max_tokens : Option Nat
  stop_sequence : Option String
  temperature : Option Rat
  seed : Option Nat
  frequency_penalty : Option Rat
  presence_penalty : Option Rat
  k : Option Rat
  top_p : Option Rat
  logprop : Option Bool
  tools : Option (List OpenAITool)
  tool_choice : Option OpenAIToolChoice
  strict_tools : Option Bool
deriving DecidableEq

/-- The record `CohereRequest::new` builds, translated arm for arm from the
source: five sampling parameters and the stream flag are forwarded from the
canonical request, everything else is set to absent. -/
def CohereRequest.make (model : String) (request : ModelInferenceRequest) :
    CohereRequest :=
  { messages := prepare_openai_messages request
    model := model
    stream := some request.stream
    temperature := request.temperature
    max_tokens := request.max_tokens
    seed := request.seed
    top_p := request.top_p
    frequency_penalty := request.frequency_penalty
    logprop := none
    tools := none
    tool_choice := none
    strict_tools := none
    k := none
    presence_penalty := none
    stop_sequence := none }

/-- `CohereRequest::new`, translated from the source: it wraps the built
record in `Ok` and has no failing path. -/
def CohereRequest.new (model : String) (request : ModelInferenceRequest) :
    Except Error CohereRequest :=
  .ok (CohereRequest.make model request)

/-- A JSON value as it appears at the top level of the serialized
`CohereRequest` body. -/
inductive JsonVal where
  | null
  | bool (b : Bool)
  | nat (n : Nat)
  | rat (q : Rat)
  | str (s : String)
  | msgs (ms : List OpenAIRequestMessage)
  | toolList (ts : List OpenAITool)
  | choice (c : OpenAIToolChoice)
deriving DecidableEq

/-- One field under serde's `skip_serializing_if = "Option::is_none"`:
emitted exactly when the value is present. -/
def optField (name : String) (v : Option JsonVal) : List (String × JsonVal) :=
  match v with
  | none => []
  | some j => [(name, j)]

/-- serde serialization of a `CohereRequest` into a top-level JSON object,
modelled as the ordered list of emitted fields.  Fields follow the source's
declaration order; each `skip_serializing_if` field is omitted when absent;
`stream`, which has no such attribute, is always emitted (as `null` when
absent, per serde's default for `Option`). -/
def serializeCohereRequest (r : CohereRequest) : List (String × JsonVal) :=
  [("messages", JsonVal.msgs r.messages),
   ("model", JsonVal.str r.model),
   ("stream", match r.stream with | some b => JsonVal.bool b | none => JsonVal.null)]
  ++ optField "max_tokens" (r.max_tokens.map .nat)
  ++ optField "stop_sequence" (r.stop_sequence.map .str)
  ++ optField "temperature" (r.temperature.map .rat)
  ++ optField "seed" (r.seed.map .nat)
  ++ optField "frequency_penalty" (r.frequency_penalty.map .rat)
  ++ optField "presence_penalty" (r.presence_penalty.map .rat)
  ++ optField "k" (r.k.map .rat)
  ++ optField "top_p" (r.top_p.map .rat)
  ++ optField "logprop" (r.logprop.map .bool)
  ++ optField "tools" (r.tools.map .toolList)
  ++ optField "tool_choice" (r.tool_choice.map .choice)
  ++ optField "strict_tools" (r.strict_tools.map .bool)

/-- The top-level field names present in a serialized body. -/
def bodyKeys (r : CohereRequest) : List String :=
  (serializeCohereRequest r).map Prod.fst

/-- JSON text of a list of strings. -/
def renderStrList (xs : List String) : String :=
  "[" ++ String.intercalate "," (xs.map (fun s => "\"" ++ s ++ "\"")) ++ "]"

/-- JSON text of one wire message. -/
def renderMessage (m : OpenAIRequestMessage) : String :=
  "\x7b\"role\":\"" ++ m.role ++ "\",\"content\":" ++ renderStrList m.content ++ "\x7d"

/-- JSON text of one tool definition. -/
def renderTool (t : OpenAITool) : String :=
  "\x7b\"name\":\"" ++ t.name ++ "\",\"description\":\"" ++ t.description ++ "\"\x7d"

/-- JSON text of a tool-choice policy. -/
def renderChoice : OpenAIToolChoice → String
  | .auto => "\"auto\""
  | .required => "\"required\""
  | .named n => "\x7b\"name\":\"" ++ n ++ "\"\x7d"

/-- JSON text of one top-level value. -/
def renderJsonVal : JsonVal → String
  | .null => "null"
  | .bool b => if b then "true" else "false"
  | .nat n => toString n
  | .rat q => toString q.num ++ "/" ++ toString q.den
  | .str s => "\"" ++ s ++ "\""
  | .msgs ms => "[" ++ String.intercalate "," (ms.map renderMessage) ++ "]"
  | .toolList ts => "[" ++ String.intercalate "," (ts.map renderTool) ++ "]"
  | .choice c => renderChoice c

/-- JSON text of the whole serialized body: the model of
`serde_json::to_string(&request_body)`. -/
def renderBody (fields : List (String × JsonVal)) : String :=
  "\x7b" ++
    String.intercalate ","
      (fields.map (fun f => "\"" ++ f.1 ++ "\":" ++ renderJsonVal f.2)) ++
  "\x7d"

/-- The string the source stores as `raw_request`:
`serde_json::to_string(&request_body).unwrap_or_default()`. -/
def rawRequestOf (r : CohereRequest) : String :=
  renderBody (serializeCohereRequest r)

/-- `CohereGeneration` from the source. -/
structure CohereGeneration where
  id : String
  text : String
  finish_reason : String
  tokens : Option Nat
deriving DecidableEq

/-- `CohereMeta` from the source. -/
structure CohereMeta where
  api_version : String
  input_tokens : Nat
  output_tokens : Nat
deriving DecidableEq

/-- `CohereResponse` from the source: the vendor response schema. -/
structure CohereResponse where
  id : String
  generations : List CohereGeneration
  message : String
  metadata : CohereMeta
deriving DecidableEq

/-- Outcome of reading a received response's body as text
(`reqwest::Response::text`). -/
inductive BodyRead where
  | ok (text : String)
  | err (msg : String)
deriving DecidableEq

/-- Behaviour of the injected HTTP client for the one send the adapter
performs: either the transport fails before any server response (carrying
the transport error's message and its own status, if any), or a response
with a status code and a body arrives. -/
inductive HttpOutcome where
  | sendError (msg : String) (status : Option Nat)
  | response (status : Nat) (body : BodyRead)
deriving DecidableEq

/-- `reqwest::StatusCode::is_success`: the 2xx range. -/
def isSuccess (status : Nat) : Bool :=
  200 ≤ status && status ≤ 299

/-- `CohereProvider` from the source. -/
structure CohereProvider where
  model_name : String
  credentials : CohereCredentials

/-- `CohereProvider::infer`, translated from the source.  The injected HTTP
client is abstracted by the `http` outcome of the single send, and the
external `serde_json::from_str::<CohereResponse>` by the `parse` function.
The result pairs the value the call produces with the number of network
sends performed.  The produced value is an `Option` because the source's
non-2xx branch, after reading the body text successfully, ends without an
expression: that path produces no value at all and is modelled as `none`.
In that branch's read-failure closure the source re-reads the already
consumed body for `raw_request` (`res.text().await.unwrap_or_default()`),
which is modelled by the default empty string. -/
def CohereProvider.infer (p : CohereProvider)
    (request : ModelInferenceRequest)
    (dynamic_api_keys : InferenceCredentials)
    (http : HttpOutcome)
    (parse : String → Except String CohereResponse) :
    Option (Except Error Nat) × Nat :=
  match CohereRequest.new p.model_name request with
  | .error e => (some (.error e), 0)
  | .ok request_body =>
    match p.credentials.get_api_key dynamic_api_keys with
    | .error e => (some (.error e), 0)
    | .ok _api_key =>
      match http with
      | .sendError msg status =>
        (some (.error (.InferenceClient
          ("Error sending request to Cohere: " ++ msg)
          status
          (some (rawRequestOf request_body))
          none
          "cohere")), 1)
      | .response status body =>
        if isSuccess status then
          match body with
          | .err e =>
            (some (.error (.InferenceServer
              ("Error parsing text response: " ++ e)
              (some (rawRequestOf request_body))
              none
              "cohere")), 1)
          | .ok text =>
            match parse text with
            | .error e =>
              (some (.error (.InferenceServer
                ("Error parsing Json response: " ++ e ++ ": " ++ text)
                (some (rawRequestOf request_body))
                none
                "cohere")), 1)
            | .ok _response => (some (.ok 0), 1)
        else
          match body with
          | .err e =>
            (some (.error (.InferenceServer
              ("Error parsisng error response: " ++ e)
              (some "")
              none
              "cohere")), 1)
          | .ok _text => (none, 1)

/-- The canonical request of the spec's Scenario A: one user message "hi",
temperature 0.5, everything else unset, streaming off. -/
def sampleRequest : ModelInferenceRequest :=
  { messages := [{ role := .user, content := ["hi"] }]
    system := none
    temperature := some (1 / 2 : Rat)
    top_p := none
    max_tokens := none
    seed := none
    frequency_penalty := none
    presence_penalty := none
    stream := false
    tools_available := none
    tool_choice := none }

/-- A provider with a static (valid) key, as in the spec's scenarios. -/
def sampleProvider : CohereProvider :=
  { model_name := "command", credentials := .Static ⟨"valid-key"⟩ }

/-- An empty dynamic-credential table. -/
def emptyTable : InferenceCredentials := fun _ => none

/-- A table holding one secret under the name "k". -/
def oneKeyTable : InferenceCredentials :=
  fun n => if n = "k" then some ⟨"s"⟩ else none

/-- A concrete well-formed vendor response value. -/
def sampleResponse : CohereResponse :=
  { id := "r1"
    generations := [{ id := "g1", text := "hello", finish_reason := "COMPLETE",
                      tokens := some 2 }]
    message := ""
    metadata := { api_version := "1", input_tokens := 1, output_tokens := 2 } }

lemma isSome_map {α β : Type} (f : α → β) (o : Option α) :
    (o.map f).isSome = o.isSome := by
  cases o <;> rfl

lemma mem_keys_optField (k n : String) (v : Option JsonVal) :
    k ∈ (optField n v).map Prod.fst ↔ (k = n ∧ v.isSome) := by
  cases v <;> simp [optField]

lemma mem_bodyKeys (r : CohereRequest) (k : String) :
    k ∈ bodyKeys r ↔
      (k = "messages" ∨ k = "model" ∨ k = "stream"
       ∨ (k = "max_tokens" ∧ r.max_tokens.isSome)
       ∨ (k = "stop_sequence" ∧ r.stop_sequence.isSome)
       ∨ (k = "temperature" ∧ r.temperature.isSome)
       ∨ (k = "seed" ∧ r.seed.isSome)
       ∨ (k = "frequency_penalty" ∧ r.frequency_penalty.isSome)
       ∨ (k = "presence_penalty" ∧ r.presence_penalty.isSome)
       ∨ (k = "k" ∧ r.k.isSome)
       ∨ (k = "top_p" ∧ r.top_p.isSome)
       ∨ (k = "logprop" ∧ r.logprop.isSome)
       ∨ (k = "tools" ∧ r.tools.isSome)
       ∨ (k = "tool_choice" ∧ r.tool_choice.isSome)
       ∨ (k = "strict_tools" ∧ r.strict_tools.isSome)) := by
  simp only [bodyKeys, serializeCohereRequest, List.map_append, List.mem_append,
    mem_keys_optField, isSome_map, List.map_cons, List.map_nil, List.mem_cons,
    List.not_mem_nil, or_false, or_assoc]

/-- C4: resolving `CohereCredentials::None` always fails with
`ApiKeyMissing{provider_name: "Cohere"}`; in test builds
`Credential::Missing` converts into `CohereCredentials::None`; and an
`infer` call with that credential returns that error having performed zero
network sends. -/
theorem cohere_none_credentials_always_api_key_missing :
    (∀ table : InferenceCredentials,
       CohereCredentials.get_api_key .None table
         = .error (.ApiKeyMissing "Cohere"))
    ∧ CohereCredentials.try_from Credential.Missing = .ok .None
    ∧ (∀ (model : String) (request : ModelInferenceRequest)
         (table : InferenceCredentials) (http : HttpOutcome)
         (parse : String → Except String CohereResponse),
       CohereProvider.infer ⟨model, .None⟩ request table http parse
         = (some (.error (.ApiKeyMissing "Cohere")), 0)) :=
  ⟨fun _ => rfl, rfl, fun _ _ _ _ _ => rfl⟩

/-- C5: resolving `CohereCredentials::Dynamic(name)` fails with
`ApiKeyMissing` when `name` is absent from the table and returns exactly the
stored secret when present; resolving `Static(secret)` always succeeds with
the held secret. -/
theorem cohere_credential_resolution_cases :
    (∀ (name : String) (table : InferenceCredentials),
       table name = none →
       CohereCredentials.get_api_key (.Dynamic name) table
         = .error (.ApiKeyMissing "Cohere"))
    ∧ (∀ (name : String) (table : InferenceCredentials) (s : SecretString),
       table name = some s →
       CohereCredentials.get_api_key (.Dynamic name) table = .ok s)
    ∧ (∀ (s : SecretString) (table : InferenceCredentials),
       CohereCredentials.get_api_key (.Static s) table = .ok s) := by
  refine ⟨fun name table h => ?_, fun name table s h => ?_, fun s table => rfl⟩
  · simp [CohereCredentials.get_api_key, h]
  · simp [CohereCredentials.get_api_key, h]

/-- Witness for C5 at a concrete table: the name "absent" is missing, the
name "k" holds the secret "s", and a static secret resolves to itself. -/
theorem cohere_credential_resolution_cases_witness :
    CohereCredentials.get_api_key (.Dynamic "absent") oneKeyTable
      = .error (.ApiKeyMissing "Cohere")
    ∧ CohereCredentials.get_api_key (.Dynamic "k") oneKeyTable = .ok ⟨"s"⟩
    ∧ CohereCredentials.get_api_key (.Static ⟨"x"⟩) oneKeyTable = .ok ⟨"x"⟩ :=
  ⟨cohere_credential_resolution_cases.1 "absent" oneKeyTable (by decide),
   cohere_credential_resolution_cases.2.1 "k" oneKeyTable ⟨"s"⟩ (by decide),
   cohere_credential_resolution_cases.2.2 ⟨"x"⟩ oneKeyTable⟩

/-- C8: credential resolution is deterministic and pure: the state-threaded
translation of `get_api_key` returns the credential value and the table
unchanged alongside the same result as the pure function, and a second call
on the state left by a first call yields the same result. -/
theorem cohere_get_api_key_pure_deterministic
    (c : CohereCredentials) (table : InferenceCredentials) :
    CohereCredentials.get_api_key_st c table
      = (CohereCredentials.get_api_key c table, c, table)
    ∧ (CohereCredentials.get_api_key_st
         (CohereCredentials.get_api_key_st c table).2.1
         (CohereCredentials.get_api_key_st c table).2.2).1
       = (CohereCredentials.get_api_key_st c table).1 := by
  have h1 : CohereCredentials.get_api_key_st c table
      = (CohereCredentials.get_api_key c table, c, table) := by
    cases c with
    | Static k => rfl
    | Dynamic n =>
      cases h : table n <;>
        simp [CohereCredentials.get_api_key, CohereCredentials.get_api_key_st, h]
    | None => rfl
  exact ⟨h1, by simp [h1]⟩

/-- C9: converting a `Credential` into `CohereCredentials` succeeds exactly
for `Static`, `Dynamic`, `None` and (in test builds) `Missing`, the latter
becoming `CohereCredentials::None`; any other variant fails with a `Config`
error whose message is "Invalid api_key_location for Cohere provider". -/
theorem cohere_try_from_credential_cases :
    (∀ k, CohereCredentials.try_from (.Static k) = .ok (.Static k))
    ∧ (∀ n, CohereCredentials.try_from (.Dynamic n) = .ok (.Dynamic n))
    ∧ CohereCredentials.try_from .None = .ok .None
    ∧ CohereCredentials.try_from .Missing = .ok .None
    ∧ (∀ v, CohereCredentials.try_from (.Other v)
         = .error (.Config "Invalid api_key_location for Cohere provider")) :=
  ⟨fun _ => rfl, fun _ => rfl, rfl, rfl, fun _ => rfl⟩

/-- C1: contrary to the claim, at a non-2xx response whose body reads
successfully (status 500, body "internal error") the source's `infer`
produces no value at all: the non-2xx branch reads the text and then ends
without constructing or returning the `InferenceServer` error. -/
theorem cohere_non2xx_branch_produces_no_value :
    CohereProvider.infer sampleProvider sampleRequest emptyTable
      (.response 500 (.ok "internal error")) (fun _ => .error "expected value")
      = (none, 1) := rfl

/-- C2: at the spec's Scenario A (static key, 200 response whose body
parses), the source's `infer` returns `Ok(0)` — a bare number per its
`Result<u32, Error>` signature — not a canonical response carrying a
latency; the measured start time is discarded. -/
theorem cohere_success_path_returns_bare_zero :
    CohereProvider.infer sampleProvider sampleRequest emptyTable
      (.response 200 (.ok "well-formed body")) (fun _ => .ok sampleResponse)
      = (some (.ok 0), 1) := rfl

/-- C3 (counterexample): at a 200 response with body "not json" that fails
to parse, the returned `InferenceServer` error has `raw_response = None`,
not the literal response text as the claim states (the text appears only
inside the message). -/
theorem cohere_parse_failure_raw_response_is_none :
    (CohereProvider.infer sampleProvider sampleRequest emptyTable
       (.response 200 (.ok "not json")) (fun _ => .error "expected value")).1
      = some (.error (.InferenceServer
          ("Error parsing Json response: " ++ "expected value" ++ ": " ++ "not json")
          (some (rawRequestOf (CohereRequest.make "command" sampleRequest)))
          none "cohere"))
    ∧ (none : Option String) ≠ some "not json" :=
  ⟨rfl, by decide⟩

/-- C3 (amended): a 2xx response whose body text fails to parse yields an
`InferenceServer` error whose message names the parse failure and carries
the literal response text, whose `raw_request` is the serialized vendor
body, and whose `raw_response` is `None`. -/
theorem cohere_parse_failure_error_shape
    (c : CohereCredentials) (key : SecretString) (model : String)
    (request : ModelInferenceRequest) (table : InferenceCredentials)
    (status : Nat) (text e : String)
    (parse : String → Except String CohereResponse)
    (hk : c.get_api_key table = .ok key)
    (hs : isSuccess status = true)
    (hp : parse text = .error e) :
    CohereProvider.infer ⟨model, c⟩ request table
      (.response status (.ok text)) parse
      = (some (.error (.InferenceServer
          ("Error parsing Json response: " ++ e ++ ": " ++ text)
          (some (rawRequestOf (CohereRequest.make model request)))
          none "cohere")), 1) := by
  simp [CohereProvider.infer, CohereRequest.new, hk, hs, hp]

/-- Witness for the amended C3 at a concrete input: static key, status 200,
body "not json", a parser rejecting it with "expected value". -/
theorem cohere_parse_failure_error_shape_witness :
    CohereProvider.infer ⟨"command", .Static ⟨"valid-key"⟩⟩ sampleRequest
      emptyTable (.response 200 (.ok "not json")) (fun _ => .error "expected value")
      = (some (.error (.InferenceServer
          ("Error parsing Json response: " ++ "expected value" ++ ": " ++ "not json")
          (some (rawRequestOf (CohereRequest.make "command" sampleRequest)))
          none "cohere")), 1) :=
  cohere_parse_failure_error_shape (.Static ⟨"valid-key"⟩) ⟨"valid-key"⟩
    "command" sampleRequest emptyTable 200 "not json" "expected value"
    (fun _ => .error "expected value") rfl rfl rfl

/-- C6: every optional sampling parameter that is unset in the canonical
request is entirely absent from the serialized vendor body built by
`CohereRequest::new` — the field does not appear at all. -/
theorem cohere_unset_params_absent_from_body
    (model : String) (request : ModelInferenceRequest) (body : CohereRequest)
    (hb : CohereRequest.new model request = .ok body) :
    (request.temperature = none → "temperature" ∉ bodyKeys body)
    ∧ (request.top_p = none → "top_p" ∉ bodyKeys body)
    ∧ (request.max_tokens = none → "max_tokens" ∉ bodyKeys body)
    ∧ (request.seed = none → "seed" ∉ bodyKeys body)
    ∧ (request.frequency_penalty = none → "frequency_penalty" ∉ bodyKeys body)
    ∧ (request.presence_penalty = none → "presence_penalty" ∉ bodyKeys body) := by
  have hbody : CohereRequest.make model request = body := by
    simpa [CohereRequest.new] using hb
  subst hbody
  refine ⟨fun h => ?_, fun h => ?_, fun h => ?_, fun h => ?_, fun h => ?_,
    fun h => ?_⟩ <;>
  simp [mem_bodyKeys, CohereRequest.make, h]

/-- Witness for C6: the Scenario A request leaves top_p, max_tokens, seed,
frequency_penalty and presence_penalty unset, and none of those fields
appear among the serialized body's keys (temperature is set there, so the
unset-parameter implications are exercised on the other five). -/
theorem cohere_unset_params_absent_from_body_witness :
    "top_p" ∉ bodyKeys (CohereRequest.make "command" sampleRequest)
    ∧ "max_tokens" ∉ bodyKeys (CohereRequest.make "command" sampleRequest)
    ∧ "seed" ∉ bodyKeys (CohereRequest.make "command" sampleRequest)
    ∧ "frequency_penalty" ∉ bodyKeys (CohereRequest.make "command" sampleRequest)
    ∧ "presence_penalty" ∉ bodyKeys (CohereRequest.make "command" sampleRequest) :=
  ⟨(cohere_unset_params_absent_from_body "command" sampleRequest _ rfl).2.1 rfl,
   (cohere_unset_params_absent_from_body "command" sampleRequest _ rfl).2.2.1 rfl,
   (cohere_unset_params_absent_from_body "command" sampleRequest _ rfl).2.2.2.1 rfl,
   (cohere_unset_params_absent_from_body "command" sampleRequest _ rfl).2.2.2.2.1 rfl,
   (cohere_unset_params_absent_from_body "command" sampleRequest _ rfl).2.2.2.2.2 rfl⟩

/-- C7: when the send fails at the transport layer, `infer` returns an
`InferenceClient` error carrying the serialized vendor request body as
`raw_request`, the transport error's own status code, and no response body
(`raw_response = None`). -/
theorem cohere_transport_failure_client_error
    (c : CohereCredentials) (key : SecretString) (model : String)
    (request : ModelInferenceRequest) (table : InferenceCredentials)
    (msg : String) (status : Option Nat)
    (parse : String → Except String CohereResponse)
    (hk : c.get_api_key table = .ok key) :
    CohereProvider.infer ⟨model, c⟩ request table (.sendError msg status) parse
      = (some (.error (.InferenceClient
          ("Error sending request to Cohere: " ++ msg) status
          (some (rawRequestOf (CohereRequest.make model request)))
          none "cohere")), 1) := by
  simp [CohereProvider.infer, CohereRequest.new, hk]

/-- Witness for C7 at a concrete input: static key, a transport failure
"connection refused" carrying no status of its own. -/
theorem cohere_transport_failure_client_error_witness :
    CohereProvider.infer ⟨"command", .Static ⟨"valid-key"⟩⟩ sampleRequest
      emptyTable (.sendError "connection refused" none)
      (fun _ => .ok sampleResponse)
      = (some (.error (.InferenceClient
          ("Error sending request to Cohere: " ++ "connection refused") none
          (some (rawRequestOf (CohereRequest.make "command" sampleRequest)))
          none "cohere")), 1) :=
  cohere_transport_failure_client_error (.Static ⟨"valid-key"⟩) ⟨"valid-key"⟩
    "command" sampleRequest emptyTable "connection refused" none
    (fun _ => .ok sampleResponse) rfl

/-- C10: `CohereRequest::new` succeeds on every input; the body it builds
always serializes the `stream` field with the request's stream flag, and the
fields presence_penalty, stop_sequence, k, logprop, tools, tool_choice and
strict_tools are unconditionally absent, whatever the canonical request
carries. -/
theorem cohere_request_always_built_fields
    (model : String) (request : ModelInferenceRequest) :
    CohereRequest.new model request = .ok (CohereRequest.make model request)
    ∧ ("stream", JsonVal.bool request.stream)
        ∈ serializeCohereRequest (CohereRequest.make model request)
    ∧ "presence_penalty" ∉ bodyKeys (CohereRequest.make model request)
    ∧ "stop_sequence" ∉ bodyKeys (CohereRequest.make model request)
    ∧ "k" ∉ bodyKeys (CohereRequest.make model request)
    ∧ "logprop" ∉ bodyKeys (CohereRequest.make model request)
    ∧ "tools" ∉ bodyKeys (CohereRequest.make model request)
    ∧ "tool_choice" ∉ bodyKeys (CohereRequest.make model request)
    ∧ "strict_tools" ∉ bodyKeys (CohereRequest.make model request) := by
  refine ⟨rfl, ?_, ?_, ?_, ?_, ?_, ?_, ?_, ?_⟩ <;>
  simp [serializeCohereRequest, CohereRequest.make, mem_bodyKeys]

end Cohere
